import Mathlib

/-!
Verification development for the telegram-mcp server (`server.py`).

The Python source is shallowly embedded: each helper and handler that the
properties below speak about is translated into an executable Lean
definition.  Remote (network) calls are modelled by passing the value the
remote client would return as an explicit argument, so every handler
becomes a pure function of its arguments and of the modelled remote data.
-/

namespace TelegramMcp

/-! ## Chat reference resolution (`resolve_chat_id`, server.py lines 78-87)

A tool argument `chat_id` is either a JSON integer or a JSON string.  The
Python code does `int(chat_id_raw)` inside `try`, falling back to
`chat_id_raw.lstrip("@")` on `ValueError`.  `pyInt` models Python's
built-in `int(str)` on ASCII decimal literals: surrounding whitespace is
ignored, an optional single sign is allowed, and single underscores may
appear between digits. -/

/-- Value of an ASCII digit character. -/
def digitVal (c : Char) : Nat := c.toNat - 48

/-- Digits of a Python integer literal after the sign: a nonempty digit
sequence where single underscores may separate digits.  The leading
character has already been checked to be a digit. -/
def pyDigitsAux : List Char → Nat → Option Nat
  | [], acc => some acc
  | c :: cs, acc =>
    if c.isDigit then pyDigitsAux cs (acc * 10 + digitVal c)
    else if c = '_' then
      match cs with
      | [] => none
      | d :: ds => if d.isDigit then pyDigitsAux (d :: ds) acc else none
    else none

/-- Unsigned part of Python's `int(str)`: nonempty, starts with a digit. -/
def pyDigits : List Char → Option Nat
  | [] => none
  | c :: cs => if c.isDigit then pyDigitsAux (c :: cs) 0 else none

/-- Model of Python's built-in `int(s)` on decimal strings: strip
whitespace, optional sign, digits (with underscores between digits).
Returns `none` where Python raises `ValueError`. -/
def pyInt (s : String) : Option Int :=
  let cs := (s.data.dropWhile Char.isWhitespace).reverse.dropWhile Char.isWhitespace |>.reverse
  match cs with
  | '-' :: rest => (pyDigits rest).map (fun n => -(n : Int))
  | '+' :: rest => (pyDigits rest).map (fun n => (n : Int))
  | rest => (pyDigits rest).map (fun n => (n : Int))

/-- Raw `chat_id` argument: a JSON integer or a JSON string. -/
inductive ChatRef
  | int (n : Int)
  | str (s : String)
  deriving DecidableEq, Repr

/-- Resolved chat identifier handed to the Telethon client. -/
inductive ChatId
  | int (n : Int)
  | name (s : String)
  deriving DecidableEq, Repr

/-- Embedding of `resolve_chat_id` (server.py lines 78-87): strings that
parse as integers become integers; other strings get `lstrip("@")`, which
removes every leading `'@'`; integers pass through unchanged. -/
def resolve_chat_id : ChatRef → ChatId
  | .int n => .int n
  | .str s =>
    match pyInt s with
    | some n => .int n
    | none => .name ⟨s.data.dropWhile (· = '@')⟩

/-- Modelled from the spec's words, for comparison with the code: a handle
string with ONE leading marker character stripped if present. -/
def stripOneLeadingMarker (s : String) : String :=
  match s.data with
  | '@' :: rest => ⟨rest⟩
  | _ => s

/-- Helper: the head of `dropWhile p l`, when it exists, does not satisfy `p`. -/
theorem head_dropWhile_false {α} (p : α → Bool) :
    ∀ (l : List α) (c : α), (l.dropWhile p).head? = some c → p c = false
  | [], c => by simp
  | a :: l, c => by
    by_cases h : p a
    · simpa [List.dropWhile_cons, h] using head_dropWhile_false p l c
    · simp only [List.dropWhile_cons, if_neg h, List.head?_cons, Option.some.injEq]
      rintro rfl
      simpa using h

example : pyInt "123" = some 123 := by decide
example : pyInt " -42 " = some (-42) := by decide
example : pyInt "1_2" = some 12 := by decide
example : pyInt "1__2" = none := by decide
example : pyInt "_1" = none := by decide
example : pyInt "1_" = none := by decide
example : pyInt "@abc" = none := by decide
example : pyInt "" = none := by decide
example : resolve_chat_id (.str "@@user") = .name "user" := by decide
example : resolve_chat_id (.str "@user") = .name "user" := by decide
example : resolve_chat_id (.str "123") = .int 123 := by decide

/-- C1 counterexample: on the input `"@@user"` the code strips EVERY
leading marker character (Python `lstrip("@")`), returning `"user"`,
whereas the claim's "one leading marker character stripped" would give
`"@user"`. -/
theorem resolve_chat_id_one_marker_counterexample :
    resolve_chat_id (.str "@@user") = .name "user" ∧
    stripOneLeadingMarker "@@user" = "@user" ∧
    resolve_chat_id (.str "@@user") ≠ .name (stripOneLeadingMarker "@@user") := by
  refine ⟨by decide, by decide, by decide⟩

/-- C1 (amended): integer inputs are returned unchanged; integer-valued
strings resolve to the integer; every other string resolves to the string
with ALL leading marker characters stripped: the result is the suffix of
the input after a block of `'@'` characters, and it does not itself start
with `'@'`.  The function is pure and deterministic (it is a Lean
function). -/
theorem resolve_chat_id_spec :
    (∀ n, resolve_chat_id (.int n) = .int n) ∧
    (∀ s n, pyInt s = some n → resolve_chat_id (.str s) = .int n) ∧
    (∀ s, pyInt s = none →
      ∃ markers rest, s.data = markers ++ rest ∧
        (∀ c ∈ markers, c = '@') ∧
        (∀ c, rest.head? = some c → c ≠ '@') ∧
        resolve_chat_id (.str s) = .name ⟨rest⟩) := by
  refine ⟨fun n => rfl, fun s n h => by simp [resolve_chat_id, h], fun s h => ?_⟩
  refine ⟨s.data.takeWhile (· = '@'), s.data.dropWhile (· = '@'),
    (List.takeWhile_append_dropWhile _ _).symm, ?_, ?_, ?_⟩
  · intro c hc
    simpa using List.mem_takeWhile_imp hc
  · intro c hc
    simpa using head_dropWhile_false _ _ _ hc
  · simp [resolve_chat_id, h]

/-- C1 witness: the amended theorem applied at the concrete inputs
`17`, `"123"` and `"@@user"`. -/
theorem resolve_chat_id_spec_witness :
    resolve_chat_id (.int 17) = .int 17 ∧
    resolve_chat_id (.str "123") = .int 123 ∧
    (∃ markers rest, ("@@user" : String).data = markers ++ rest ∧
      (∀ c ∈ markers, c = '@') ∧
      (∀ c, rest.head? = some c → c ≠ '@') ∧
      resolve_chat_id (.str "@@user") = .name ⟨rest⟩) :=
  ⟨resolve_chat_id_spec.1 17,
   resolve_chat_id_spec.2.1 "123" 123 (by decide),
   resolve_chat_id_spec.2.2 "@@user" (by decide)⟩

/-! ## Timestamp formatting (`format_timestamp`, server.py lines 90-96)

`format_timestamp` returns `None` for `None` and otherwise
`dt.strftime("%Y-%m-%d %H:%M:%S UTC")`.  A timezone-aware UTC datetime is
modelled as its displayed field tuple; the `replace(tzinfo=utc)` step for
naive datetimes attaches the UTC zone without changing any displayed
field, so it is the identity on this model.  The model covers four-digit
years (`strftime`'s rendering of years below 1000 is platform-dependent;
Telegram dates are all four-digit). -/

/-- Field tuple of a UTC datetime as displayed by `strftime`. -/
structure PyDateTime where
  year : Nat
  month : Nat
  day : Nat
  hour : Nat
  minute : Nat
  second : Nat
  deriving DecidableEq, Repr

/-- ASCII digit character for a value `0..9`. -/
def digitChar (n : Nat) : Char := Char.ofNat (48 + n)

/-- Two-digit zero-padded rendering (`%m`, `%d`, `%H`, `%M`, `%S`). -/
def pad2 (n : Nat) : List Char := [digitChar (n / 10), digitChar (n % 10)]

/-- Four-digit rendering of a four-digit year (`%Y`). -/
def pad4 (n : Nat) : List Char :=
  [digitChar (n / 1000), digitChar (n / 100 % 10), digitChar (n / 10 % 10), digitChar (n % 10)]

/-- Embedding of `format_timestamp` (server.py lines 90-96). -/
def format_timestamp : Option PyDateTime → Option String
  | none => none
  | some dt =>
    some ⟨pad4 dt.year ++ '-' :: pad2 dt.month ++ '-' :: pad2 dt.day ++
          ' ' :: pad2 dt.hour ++ ':' :: pad2 dt.minute ++ ':' :: pad2 dt.second ++
          [' ', 'U', 'T', 'C']⟩

/-- Read a two-digit decimal number. -/
def readNat2 (a b : Char) : Option Nat :=
  if a.isDigit && b.isDigit then some (digitVal a * 10 + digitVal b) else none

/-- Read a four-digit decimal number. -/
def readNat4 (a b c d : Char) : Option Nat :=
  if a.isDigit && b.isDigit && c.isDigit && d.isDigit then
    some (((digitVal a * 10 + digitVal b) * 10 + digitVal c) * 10 + digitVal d)
  else none

/-- Inverse of the `"%Y-%m-%d %H:%M:%S UTC"` rendering, on the character
list of the string. -/
def parseTimestampChars : List Char → Option PyDateTime
  | [y1, y2, y3, y4, sep1, m1, m2, sep2, d1, d2, sep3,
     h1, h2, sep4, mi1, mi2, sep5, sec1, sec2, sep6, u1, u2, u3] =>
    if sep1 = '-' && sep2 = '-' && sep3 = ' ' && sep4 = ':' && sep5 = ':' &&
       sep6 = ' ' && u1 = 'U' && u2 = 'T' && u3 = 'C' then
      match readNat4 y1 y2 y3 y4, readNat2 m1 m2, readNat2 d1 d2,
            readNat2 h1 h2, readNat2 mi1 mi2, readNat2 sec1 sec2 with
      | some y, some mo, some d, some h, some mi, some s => some ⟨y, mo, d, h, mi, s⟩
      | _, _, _, _, _, _ => none
    else none
  | _ => none

/-- Parse a formatted timestamp string back to its field tuple. -/
def parse_timestamp (s : String) : Option PyDateTime := parseTimestampChars s.data

theorem digitChar_isDigit {n : Nat} (h : n ≤ 9) : (digitChar n).isDigit = true := by
  interval_cases n <;> decide

theorem digitVal_digitChar {n : Nat} (h : n ≤ 9) : digitVal (digitChar n) = n := by
  interval_cases n <;> decide

theorem readNat2_pad2 {n : Nat} (h : n < 100) :
    readNat2 (digitChar (n / 10)) (digitChar (n % 10)) = some n := by
  rw [readNat2, digitChar_isDigit (by omega), digitChar_isDigit (by omega)]
  rw [digitVal_digitChar (by omega), digitVal_digitChar (by omega)]
  simp only [Bool.and_self, if_true, Option.some.injEq]
  omega

theorem readNat4_pad4 {n : Nat} (h1 : 1000 ≤ n) (h2 : n < 10000) :
    readNat4 (digitChar (n / 1000)) (digitChar (n / 100 % 10))
      (digitChar (n / 10 % 10)) (digitChar (n % 10)) = some n := by
  rw [readNat4, digitChar_isDigit (by omega), digitChar_isDigit (by omega),
    digitChar_isDigit (by omega), digitChar_isDigit (by omega)]
  rw [digitVal_digitChar (by omega), digitVal_digitChar (by omega),
    digitVal_digitChar (by omega), digitVal_digitChar (by omega)]
  simp only [Bool.and_self, if_true, Option.some.injEq]
  omega

/-- C5: formatting maps a null timestamp to null; every non-null
timestamp with four-digit year maps to a fixed-format string which parses
back to the very same field tuple, so re-formatting the parsed instant
yields the same string (idempotence under round-trip).  Determinism is
immediate since `format_timestamp` is a function. -/
theorem format_timestamp_spec :
    format_timestamp none = none ∧
    (∀ dt : PyDateTime, 1000 ≤ dt.year → dt.year < 10000 → dt.month < 100 →
      dt.day < 100 → dt.hour < 100 → dt.minute < 100 → dt.second < 100 →
      ∃ s, format_timestamp (some dt) = some s ∧
        parse_timestamp s = some dt ∧
        (parse_timestamp s).map (fun dt2 => format_timestamp (some dt2)) =
          some (some s)) := by
  refine ⟨rfl, fun dt hy1 hy2 hm hd hh hmi hs => ?_⟩
  refine ⟨_, rfl, ?_, ?_⟩
  · show parseTimestampChars _ = some dt
    simp only [pad4, pad2, List.cons_append, List.nil_append, parseTimestampChars]
    simp only [readNat4_pad4 hy1 hy2, readNat2_pad2 hm, readNat2_pad2 hd,
      readNat2_pad2 hh, readNat2_pad2 hmi, readNat2_pad2 hs]
    rfl
  · show (parseTimestampChars _).map _ = _
    simp only [pad4, pad2, List.cons_append, List.nil_append, parseTimestampChars]
    simp only [readNat4_pad4 hy1 hy2, readNat2_pad2 hm, readNat2_pad2 hd,
      readNat2_pad2 hh, readNat2_pad2 hmi, readNat2_pad2 hs]
    rfl

/-- C5 witness: the theorem applied at the concrete timestamp
2024-01-15 12:30:05 UTC. -/
theorem format_timestamp_spec_witness :
    (1000 ≤ 2024 ∧ 2024 < 10000 ∧ 1 < 100 ∧ 15 < 100 ∧ 12 < 100 ∧
      30 < 100 ∧ 5 < 100) ∧
    (∃ s, format_timestamp (some ⟨2024, 1, 15, 12, 30, 5⟩) = some s ∧
      parse_timestamp s = some ⟨2024, 1, 15, 12, 30, 5⟩ ∧
      (parse_timestamp s).map (fun dt2 => format_timestamp (some dt2)) =
        some (some s)) :=
  ⟨by decide,
   format_timestamp_spec.2 ⟨2024, 1, 15, 12, 30, 5⟩ (by decide) (by decide)
     (by decide) (by decide) (by decide) (by decide) (by decide)⟩

/-! ## Media classification (`get_media_type`, server.py lines 99-130)

`get_media_type` inspects `message.media`.  For a `MessageMediaDocument`
it scans `media.document.attributes` in order, matching on the attribute
class name; an unmatched name is skipped.  When the inner `document` is
`None` the Python code falls through every later `isinstance` check and
returns `"other"`. -/

/-- Document attribute, by the class-name test the code performs.
`otherAttr` stands for any attribute whose class name is none of the four
tested names. -/
inductive DocAttr
  | video
  | audio (voice : Bool)
  | sticker
  | animated
  | otherAttr
  deriving DecidableEq, Repr

/-- Telethon document payload: the code only reads its attribute list. -/
structure TgDocument where
  attributes : List DocAttr
  deriving DecidableEq, Repr

/-- Message media payload, by the `isinstance` tests the code performs.
`otherMedia` stands for any media class not otherwise tested. -/
inductive Media
  | photo
  | document (doc : Option TgDocument)
  | webpage
  | geo
  | contact
  | poll
  | otherMedia
  deriving DecidableEq, Repr

/-- First-match scan of a document's attribute list (the `for attr in
doc.attributes` loop); `none` when no attribute matches. -/
def classifyAttrs : List DocAttr → Option String
  | [] => none
  | .video :: _ => some "video"
  | .audio voice :: _ => some (if voice then "voice" else "audio")
  | .sticker :: _ => some "sticker"
  | .animated :: _ => some "gif"
  | .otherAttr :: rest => classifyAttrs rest

/-- Embedding of `get_media_type` (server.py lines 99-130), as a function
of `message.media`. -/
def get_media_type : Option Media → Option String
  | none => none
  | some .photo => some "photo"
  | some (.document (some doc)) => some ((classifyAttrs doc.attributes).getD "document")
  | some (.document none) => some "other"
  | some .webpage => some "webpage"
  | some .geo => some "location"
  | some .contact => some "contact"
  | some .poll => some "poll"
  | some .otherMedia => some "other"

example : get_media_type (some (.document none)) = some "other" := by decide
example : get_media_type (some (.document (some ⟨[.otherAttr]⟩))) = some "document" := by decide
example : get_media_type (some (.document (some ⟨[.otherAttr, .audio true, .video]⟩))) = some "voice" := by decide

/-- Helper: the attribute scan returns `none` exactly when every
attribute is of an untested kind. -/
theorem classifyAttrs_eq_none_iff :
    ∀ l : List DocAttr, classifyAttrs l = none ↔ ∀ a ∈ l, a = .otherAttr
  | [] => by simp [classifyAttrs]
  | .video :: rest => by simp [classifyAttrs]
  | .audio voice :: rest => by cases voice <;> simp [classifyAttrs]
  | .sticker :: rest => by simp [classifyAttrs]
  | .animated :: rest => by simp [classifyAttrs]
  | .otherAttr :: rest => by
    simpa [classifyAttrs] using classifyAttrs_eq_none_iff rest

/-- Helper: the attribute scan never yields the tag `"document"`. -/
theorem classifyAttrs_ne_document :
    ∀ l : List DocAttr, classifyAttrs l ≠ some "document"
  | [] => by simp [classifyAttrs]
  | .video :: rest => by
    intro h
    rw [classifyAttrs] at h
    exact absurd (Option.some.inj h) (by decide)
  | .audio voice :: rest => by
    intro h
    rw [classifyAttrs] at h
    cases voice <;> exact absurd (Option.some.inj h) (by decide)
  | .sticker :: rest => by
    intro h
    rw [classifyAttrs] at h
    exact absurd (Option.some.inj h) (by decide)
  | .animated :: rest => by
    intro h
    rw [classifyAttrs] at h
    exact absurd (Option.some.inj h) (by decide)
  | .otherAttr :: rest => by
    rw [classifyAttrs]
    exact classifyAttrs_ne_document rest

/-- C10: a document-kind media whose inner document is absent classifies
as `"other"`, not `"document"`; a present document classifies as
`"document"` exactly when no attribute matches the four tested kinds; and
the attribute scan is first-match-wins. -/
theorem get_media_type_document_spec :
    get_media_type (some (.document none)) = some "other" ∧
    (∀ doc : TgDocument,
      (get_media_type (some (.document (some doc))) = some "document" ↔
        ∀ a ∈ doc.attributes, a = .otherAttr)) ∧
    (∀ rest, classifyAttrs (.video :: rest) = some "video") ∧
    (∀ voice rest, classifyAttrs (.audio voice :: rest) =
      some (if voice then "voice" else "audio")) ∧
    (∀ rest, classifyAttrs (.sticker :: rest) = some "sticker") ∧
    (∀ rest, classifyAttrs (.animated :: rest) = some "gif") ∧
    (∀ rest, classifyAttrs (.otherAttr :: rest) = classifyAttrs rest) := by
  refine ⟨rfl, fun doc => ?_, fun _ => rfl, fun _ _ => rfl, fun _ => rfl,
    fun _ => rfl, fun _ => rfl⟩
  have hmain : get_media_type (some (.document (some doc))) =
      some ((classifyAttrs doc.attributes).getD "document") := rfl
  rw [hmain, Option.some.injEq, ← classifyAttrs_eq_none_iff]
  constructor
  · intro h
    cases hc : classifyAttrs doc.attributes with
    | none => rfl
    | some t =>
      rw [hc] at h
      simp only [Option.getD_some] at h
      subst h
      exact absurd hc (classifyAttrs_ne_document doc.attributes)
  · intro h
    rw [h]
    rfl

/-! ## Entities, sender names and chat kinds (server.py lines 151-204)

Telethon entities are `User`, `Chat` or `Channel`; `unknownEntity` stands
for any other object with an `id` (the only field the code reads from
it).  Python string truthiness (`None` and `""` are falsy) is modelled by
`pyTruthy`. -/

/-- Truthiness of an optional string, as Python evaluates `x or y`. -/
def pyTruthy : Option String → Bool
  | none => false
  | some s => s ≠ ""

/-- Python `a or b` on optional strings. -/
def pyOrStr (a b : Option String) : Option String :=
  if pyTruthy a then a else b

/-- Telethon entity as read by the helpers. -/
inductive Entity
  | user (id : Int) (first_name last_name username : Option String) (bot : Bool)
  | chat (id : Int) (title : Option String)
  | channel (id : Int) (title : Option String) (megagroup : Bool)
  | unknownEntity (id : Int)
  deriving DecidableEq, Repr

/-- Identifier of an entity (`sender.id`). -/
def Entity.entityId : Entity → Int
  | .user i _ _ _ _ => i
  | .chat i _ => i
  | .channel i _ _ => i
  | .unknownEntity i => i

/-- Embedding of `get_sender_name` (server.py lines 151-161): for users,
the space-joined nonempty name parts, else the username, else the
stringified id; for chats/channels the title, else the stringified id. -/
def get_sender_name : Option Entity → String
  | none => "Unknown"
  | some (.user i fn ln un _) =>
    let parts := [fn.getD "", ln.getD ""]
    let name := " ".intercalate (parts.filter (· ≠ ""))
    if name ≠ "" then name
    else if pyTruthy un then un.getD "" else toString i
  | some (.chat i title) =>
    if pyTruthy title then title.getD "" else toString i
  | some (.channel i title _) =>
    if pyTruthy title then title.getD "" else toString i
  | some (.unknownEntity i) => toString i

/-- Embedding of `get_chat_type` (server.py lines 191-204) on the entity
(for a dialog the code first projects to `dialog.entity`). -/
def get_chat_type : Entity → String
  | .channel _ _ megagroup => if megagroup then "group" else "channel"
  | .chat _ _ => "group"
  | .user _ _ _ _ bot => if bot then "bot" else "user"
  | .unknownEntity _ => "unknown"

/-! ## Message formatting (`format_message`, server.py lines 164-188)

The emitted JSON object is modelled as an association list from key to
JSON value, built in the order the Python dict is built.  The remote
`message.get_sender()` call is modelled by the `sender` field carried on
the message. -/

/-- JSON value, as far as `format_message` emits them. -/
inductive JVal
  | null
  | jstr (s : String)
  | jint (n : Int)
  | jbool (b : Bool)
  deriving DecidableEq, Repr

/-- Reply header: the code reads `message.reply_to.reply_to_msg_id`. -/
structure ReplyHeader where
  reply_to_msg_id : Int
  deriving DecidableEq, Repr

/-- Telethon message as read by `format_message` and the handlers. -/
structure TgMessage where
  id : Int
  sender : Option Entity
  date : Option PyDateTime
  text : Option String
  reply_to : Option ReplyHeader
  media : Option Media
  forward : Bool
  deriving DecidableEq, Repr

/-- Embedding of `format_message` (server.py lines 164-188). -/
def format_message (m : TgMessage) : List (String × JVal) :=
  let base := [("id", JVal.jint m.id),
               ("sender_name", JVal.jstr (get_sender_name m.sender)),
               ("sender_id", match m.sender with
                             | some s => JVal.jint s.entityId
                             | none => JVal.null),
               ("date", match format_timestamp m.date with
                        | some s => JVal.jstr s
                        | none => JVal.null),
               ("text", JVal.jstr (m.text.getD ""))]
  let r1 := match m.reply_to with
            | some rh => base ++ [("reply_to_msg_id", JVal.jint rh.reply_to_msg_id)]
            | none => base
  let r2 := match get_media_type m.media with
            | some t => r1 ++ [("media_type", JVal.jstr t)]
            | none => r1
  if m.forward then r2 ++ [("forwarded", JVal.jbool true)] else r2

/-- C6: in the formatted record, `reply_to_msg_id` is present exactly
when the message has a reply header (and then holds its id),
`media_type` is present exactly when the media classifies to a tag (and
then holds the tag), `forwarded` is present exactly when the message is
forwarded (and then holds `true`) — so none of the three is ever
null-valued — while `date` and `text` are always present, `text`
defaulting to the empty string. -/
theorem format_message_optional_fields (m : TgMessage) :
    (format_message m).lookup "reply_to_msg_id" =
      (m.reply_to).map (fun rh => JVal.jint rh.reply_to_msg_id) ∧
    (format_message m).lookup "media_type" =
      (get_media_type m.media).map JVal.jstr ∧
    (format_message m).lookup "forwarded" =
      (if m.forward then some (JVal.jbool true) else none) ∧
    (format_message m).lookup "date" =
      some (match format_timestamp m.date with
            | some s => JVal.jstr s
            | none => JVal.null) ∧
    (format_message m).lookup "text" = some (JVal.jstr (m.text.getD "")) := by
  unfold format_message
  rcases m.reply_to with _ | rh <;>
    rcases hmt : get_media_type m.media with _ | t <;>
    rcases m.forward with _ | _ <;>
    simp [List.lookup, hmt]

/-- Helper: the formatted record always exposes the message id under the
key `"id"`. -/
theorem format_message_lookup_id (m : TgMessage) :
    (format_message m).lookup "id" = some (JVal.jint m.id) := by
  unfold format_message
  rcases m.reply_to with _ | rh <;>
    rcases hmt : get_media_type m.media with _ | t <;>
    rcases m.forward with _ | _ <;>
    simp [List.lookup, hmt]

/-! ## Read thread (`handle_read_thread`, server.py lines 616-642)

The handler collects up to `limit` replies from
`iter_messages(chat_id, reply_to=message_id, limit=limit)` (the remote
service yields them newest-first and already applies `limit`, modelled by
`take limit`), formats each, and then reverses the list
(`replies.reverse()`) to present chronological order. -/

/-- Reply collection of `handle_read_thread`: format each streamed reply
in order, then reverse. -/
def handle_read_thread_replies (limit : Nat) (replyStream : List TgMessage) :
    List (List (String × JVal)) :=
  ((replyStream.take limit).map format_message).reverse

/-- Message with only an id, for concrete examples. -/
def mkPlainMsg (i : Int) : TgMessage :=
  ⟨i, none, none, none, none, none, false⟩

/-- C7: when the remote stream fits in the limit, the handler's reply
list is exactly the reversal of the stream: the ids read off the output
records are the reverse of the streamed ids, so a newest-first stream
comes out chronological. -/
theorem handle_read_thread_reverses (replyStream : List TgMessage) (limit : Nat)
    (h : replyStream.length ≤ limit) :
    (handle_read_thread_replies limit replyStream).map (fun r => r.lookup "id") =
      (replyStream.map (fun m => some (JVal.jint m.id))).reverse := by
  unfold handle_read_thread_replies
  rw [List.take_of_length_le h, ← List.map_reverse, ← List.map_reverse,
    List.map_map]
  congr 1
  funext m
  exact format_message_lookup_id m

/-- C7 witness: replies streamed newest-first with ids `[5, 4, 3]` come
out with ids `[3, 4, 5]`. -/
theorem handle_read_thread_reverses_witness :
    ([mkPlainMsg 5, mkPlainMsg 4, mkPlainMsg 3] : List TgMessage).length ≤ 20 ∧
    (handle_read_thread_replies 20 [mkPlainMsg 5, mkPlainMsg 4, mkPlainMsg 3]).map
        (fun r => r.lookup "id") =
      [some (JVal.jint 3), some (JVal.jint 4), some (JVal.jint 5)] :=
  ⟨by decide, by
    rw [handle_read_thread_reverses _ _ (by decide)]
    rfl⟩

/-! ## List chats (`handle_list_chats`, server.py lines 455-483)

`get_dialogs(limit=..., offset_id=...)` is a remote call; its returned
dialog list is the input here.  The loop computes the chat kind, skips
entries not matching a truthy `chat_type` filter, and builds a record
whose last-message preview is `d.message.text[:100]`, present only when
the dialog has a message with truthy text. -/

/-- Python string slice `s[:n]`. -/
def pyStrTake (s : String) (n : Nat) : String := ⟨s.data.take n⟩

/-- Last message attached to a dialog, as read by the handler. -/
structure DialogMessage where
  text : Option String
  date : Option PyDateTime
  deriving DecidableEq, Repr

/-- Telethon dialog as read by `handle_list_chats`. -/
structure Dialog where
  entity : Entity
  id : Int
  title : Option String
  name : Option String
  unread_count : Int
  message : Option DialogMessage
  deriving DecidableEq, Repr

/-- Chat record emitted per dialog; `none` fields model omitted keys
(`last_message`, `last_message_date` are only set when the dialog has a
message with truthy text). -/
structure ChatInfo where
  id : Int
  title : Option String
  type : String
  unread_count : Int
  last_message : Option String
  last_message_date : Option (Option String)
  deriving DecidableEq, Repr

/-- Record built for one dialog (the loop body of `handle_list_chats`
minus the filter). -/
def mkChatInfo (d : Dialog) : ChatInfo :=
  { id := d.id
    title := pyOrStr d.title d.name
    type := get_chat_type d.entity
    unread_count := d.unread_count
    last_message :=
      match d.message with
      | some dm => if pyTruthy dm.text then some (pyStrTake (dm.text.getD "") 100) else none
      | none => none
    last_message_date :=
      match d.message with
      | some dm => if pyTruthy dm.text then some (format_timestamp dm.date) else none
      | none => none }

/-- Embedding of `handle_list_chats` (server.py lines 455-483) as a
function of the filter argument and the dialogs the remote call
returned. -/
def handle_list_chats (chat_type_filter : Option String) (dialogs : List Dialog) :
    List ChatInfo :=
  dialogs.filterMap (fun d =>
    if pyTruthy chat_type_filter && get_chat_type d.entity ≠ chat_type_filter.getD ""
    then none
    else some (mkChatInfo d))

/-- C8: with a (truthy) chat-kind filter, the result is exactly the
order-preserving image of the dialogs whose computed kind equals the
filter, and every present last-message preview has at most 100
characters. -/
theorem handle_list_chats_filter_spec (dialogs : List Dialog) (f : String)
    (hf : f ≠ "") :
    handle_list_chats (some f) dialogs =
      (dialogs.filter (fun d => get_chat_type d.entity = f)).map mkChatInfo ∧
    ∀ c ∈ handle_list_chats (some f) dialogs, ∀ s, c.last_message = some s →
      s.length ≤ 100 := by
  have hmain : handle_list_chats (some f) dialogs =
      (dialogs.filter (fun d => get_chat_type d.entity = f)).map mkChatInfo := by
    induction dialogs with
    | nil => rfl
    | cons d rest ih =>
      by_cases hd : get_chat_type d.entity = f
      · simp [handle_list_chats, List.filterMap_cons, pyTruthy, hf, hd,
          List.filter_cons] at ih ⊢
        exact ih
      · simp [handle_list_chats, List.filterMap_cons, pyTruthy, hf, hd,
          List.filter_cons] at ih ⊢
        exact ih
  refine ⟨hmain, ?_⟩
  intro c hc s hs
  rw [hmain] at hc
  obtain ⟨d, _, rfl⟩ := List.mem_map.mp hc
  have hlen : ∀ t : String, (pyStrTake t 100).length ≤ 100 := by
    intro t
    show (List.take 100 t.data).length ≤ 100
    rw [List.length_take]
    exact min_le_left _ _
  rcases hm : d.message with _ | dm
  · simp [mkChatInfo, hm] at hs
  · by_cases ht : pyTruthy dm.text
    · simp only [mkChatInfo, hm, ht, if_true, Option.some.injEq] at hs
      rw [← hs]
      exact hlen _
    · simp [mkChatInfo, hm, ht] at hs

/-- C8 witness: dialogs of kinds group (megagroup channel), user, group
(plain chat) and channel, filtered by `"group"`, keep exactly the first
and third in order; a 101-character preview comes out with 100
characters. -/
theorem handle_list_chats_filter_spec_witness :
    ("group" ≠ "") ∧
    (handle_list_chats (some "group")
        [⟨.channel 1 (some "a") true, 1, some "a", none, 0, none⟩,
         ⟨.user 2 none none none false, 2, none, none, 0, none⟩,
         ⟨.chat 3 (some "c") , 3, some "c", none, 0,
           some ⟨some (String.mk (List.replicate 101 'x')), none⟩⟩,
         ⟨.channel 4 (some "d") false, 4, some "d", none, 0, none⟩] =
      [mkChatInfo ⟨.channel 1 (some "a") true, 1, some "a", none, 0, none⟩,
       mkChatInfo ⟨.chat 3 (some "c"), 3, some "c", none, 0,
         some ⟨some (String.mk (List.replicate 101 'x')), none⟩⟩]) ∧
    (∀ c ∈ handle_list_chats (some "group")
        [⟨.channel 1 (some "a") true, 1, some "a", none, 0, none⟩,
         ⟨.user 2 none none none false, 2, none, none, 0, none⟩,
         ⟨.chat 3 (some "c"), 3, some "c", none, 0,
           some ⟨some (String.mk (List.replicate 101 'x')), none⟩⟩,
         ⟨.channel 4 (some "d") false, 4, some "d", none, 0, none⟩],
      ∀ s, c.last_message = some s → s.length ≤ 100) :=
  ⟨by decide,
   by
    rw [(handle_list_chats_filter_spec _ "group" (by decide)).1]
    rfl,
   fun c hc s hs =>
    (handle_list_chats_filter_spec _ "group" (by decide)).2 c hc s hs⟩

/-! ## Tool dispatcher (`call_tool`, server.py lines 397-448)

The dispatcher first checks that the Telethon client exists and is
connected (`connected` models that conjunction).  The body routes the
name through an if/elif chain over the ten registered names; an unknown
name returns a diagnostic.  Around the body sits `try/except` with four
Telethon-specific handlers, a `ValueError` handler and a catch-all
`Exception` handler.  A handler call is modelled by `run`, which either
returns text contents or raises one of the modelled exception kinds; the
second component of the result records whether a handler was invoked
(the substitute-remote-client observation). -/

/-- Exception kinds distinguished by the dispatcher's `except` clauses.
`otherError` stands for any other `Exception`. -/
inductive TgError
  | chatAdminRequired
  | channelPrivate
  | messageNotModified
  | messageAuthorRequired
  | valueError (msg : String)
  | otherError (msg : String)
  deriving DecidableEq, Repr

/-- Outcome of running a handler: returned text contents, or a raised
exception. -/
inductive HandlerOutcome
  | ok (texts : List String)
  | raise (e : TgError)
  deriving DecidableEq, Repr

/-- The ten registered tool names, in dispatch order. -/
def toolNames : List String :=
  ["telegram_list_chats", "telegram_get_chat_info",
   "telegram_read_messages", "telegram_search_messages", "telegram_read_thread",
   "telegram_send_message", "telegram_edit_message", "telegram_delete_message",
   "telegram_search_contacts", "telegram_get_user_info"]

/-- Messages of the `except` clauses (server.py lines 436-448). -/
def errorText : TgError → String
  | .chatAdminRequired => "Error: Admin privileges required for this action."
  | .channelPrivate => "Error: This channel/group is private or you're not a member."
  | .messageNotModified => "Error: Message content is the same — nothing to update."
  | .messageAuthorRequired => "Error: You can only edit/delete your own messages."
  | .valueError m => "Error: " ++ m
  | .otherError m => "Error: " ++ m

/-- Body of the `try` block: the if/elif routing.  The second component
records whether a handler was invoked. -/
def dispatchBody (name : String) (run : String → HandlerOutcome) :
    Except TgError (List String) × Bool :=
  if name ∈ toolNames then
    match run name with
    | .ok ts => (.ok ts, true)
    | .raise e => (.error e, true)
  else (.ok ["Unknown tool: " ++ name], false)

/-- The `except` clauses: every modelled exception kind is caught and
mapped to a one-line message, so nothing propagates. -/
def handleExcept : Except TgError (List String) → List String
  | .ok ts => ts
  | .error e => [errorText e]

/-- Embedding of `call_tool` (server.py lines 397-448). -/
def call_tool (connected : Bool) (name : String) (run : String → HandlerOutcome) :
    List String × Bool :=
  if !connected then (["Not connected to Telegram. Please restart the server."], false)
  else
    let body := dispatchBody name run
    (handleExcept body.1, body.2)

/-- C3: the dispatcher never raises past its boundary — its result is
either the handler's success payload or a single one-line text; unknown
tool names yield one diagnostic naming the tool; each of the four fixed
remote rejection kinds maps to its stable one-line message; and value
errors and unanticipated failures surface as one-line
`"Error: <message>"` texts. -/
theorem call_tool_error_spec :
    (∀ connected name run,
      (∃ ts, run name = HandlerOutcome.ok ts ∧
        (call_tool connected name run).1 = ts) ∨
      (call_tool connected name run).1.length = 1) ∧
    (∀ name run, name ∉ toolNames →
      call_tool true name run = (["Unknown tool: " ++ name], false)) ∧
    (∀ name run, name ∈ toolNames → run name = .raise .chatAdminRequired →
      call_tool true name run =
        (["Error: Admin privileges required for this action."], true)) ∧
    (∀ name run, name ∈ toolNames → run name = .raise .channelPrivate →
      call_tool true name run =
        (["Error: This channel/group is private or you're not a member."], true)) ∧
    (∀ name run, name ∈ toolNames → run name = .raise .messageNotModified →
      call_tool true name run =
        (["Error: Message content is the same — nothing to update."], true)) ∧
    (∀ name run, name ∈ toolNames → run name = .raise .messageAuthorRequired →
      call_tool true name run =
        (["Error: You can only edit/delete your own messages."], true)) ∧
    (∀ name run m, name ∈ toolNames → run name = .raise (.valueError m) →
      call_tool true name run = (["Error: " ++ m], true)) ∧
    (∀ name run m, name ∈ toolNames → run name = .raise (.otherError m) →
      call_tool true name run = (["Error: " ++ m], true)) := by
  have hrun : ∀ name run (e : TgError), name ∈ toolNames → run name = .raise e →
      call_tool true name run = ([errorText e], true) := by
    intro name run e hmem hr
    simp [call_tool, dispatchBody, hmem, hr, handleExcept]
  refine ⟨?_, ?_, fun n r => hrun n r .chatAdminRequired,
    fun n r => hrun n r .channelPrivate, fun n r => hrun n r .messageNotModified,
    fun n r => hrun n r .messageAuthorRequired,
    fun n r m => hrun n r (.valueError m), fun n r m => hrun n r (.otherError m)⟩
  · intro connected name run
    cases connected with
    | false => exact Or.inr rfl
    | true =>
      by_cases hmem : name ∈ toolNames
      · cases hr : run name with
        | ok ts =>
          exact Or.inl ⟨ts, rfl, by simp [call_tool, dispatchBody, hmem, hr, handleExcept]⟩
        | raise e =>
          refine Or.inr ?_
          simp [call_tool, dispatchBody, hmem, hr, handleExcept]
      · refine Or.inr ?_
        simp [call_tool, dispatchBody, hmem, handleExcept]
  · intro name run hmem
    simp [call_tool, dispatchBody, hmem, handleExcept]

/-- C3 witness: the theorem applied at concrete names and handler
outcomes. -/
theorem call_tool_error_spec_witness :
    ((∃ ts, (fun _ => HandlerOutcome.ok ["ok"]) "telegram_list_chats" =
        HandlerOutcome.ok ts ∧
      (call_tool true "telegram_list_chats" (fun _ => .ok ["ok"])).1 = ts) ∨
      (call_tool true "telegram_list_chats" (fun _ => .ok ["ok"])).1.length = 1) ∧
    call_tool true "bogus_tool" (fun _ => .ok []) =
      (["Unknown tool: bogus_tool"], false) ∧
    call_tool true "telegram_delete_message"
        (fun _ => .raise .chatAdminRequired) =
      (["Error: Admin privileges required for this action."], true) ∧
    call_tool true "telegram_send_message" (fun _ => .raise (.valueError "bad")) =
      (["Error: bad"], true) ∧
    call_tool true "telegram_edit_message" (fun _ => .raise (.otherError "boom")) =
      (["Error: boom"], true) :=
  ⟨call_tool_error_spec.1 true "telegram_list_chats" (fun _ => .ok ["ok"]),
   by
    have h := call_tool_error_spec.2.1 "bogus_tool" (fun _ => .ok []) (by decide)
    simpa using h,
   call_tool_error_spec.2.2.1 "telegram_delete_message"
     (fun _ => .raise .chatAdminRequired) (by decide) rfl,
   call_tool_error_spec.2.2.2.2.2.2.1 "telegram_send_message"
     (fun _ => .raise (.valueError "bad")) "bad" (by decide) rfl,
   call_tool_error_spec.2.2.2.2.2.2.2 "telegram_edit_message"
     (fun _ => .raise (.otherError "boom")) "boom" (by decide) rfl⟩

/-- C4: with an unlive connection every call, whatever the tool name,
arguments and handler behaviour, returns the single fixed diagnostic and
invokes no handler (the invocation flag is `false`), so no remote call is
attempted. -/
theorem call_tool_unlive_guard (name : String) (run : String → HandlerOutcome) :
    call_tool false name run =
      (["Not connected to Telegram. Please restart the server."], false) := rfl

/-! ## Read messages (`handle_read_messages`, server.py lines 545-582)

With `min_date` given, the handler iterates the remote stream
(newest-first), and for each message first checks
`msg.date.replace(tzinfo=utc) < min_dt` — breaking out of the loop there
— then appends the formatted message and breaks once `limit` messages
are collected.  Python compares datetimes lexicographically on their
fields, modelled by `dateLt`.  The loop is modelled as a function of the
stream the remote iterator would yield; the second component counts how
many stream elements the loop consumed before halting. -/

/-- Chronological (lexicographic) order on datetime field tuples, as
Python compares timezone-aware datetimes of the same zone. -/
def dateLt (a b : PyDateTime) : Prop :=
  a.year < b.year ∨ (a.year = b.year ∧ (a.month < b.month ∨ (a.month = b.month ∧
    (a.day < b.day ∨ (a.day = b.day ∧ (a.hour < b.hour ∨ (a.hour = b.hour ∧
      (a.minute < b.minute ∨ (a.minute = b.minute ∧
        a.second < b.second)))))))))

instance (a b : PyDateTime) : Decidable (dateLt a b) := by
  unfold dateLt
  infer_instance

theorem dateLt_trans {a b c : PyDateTime} (h1 : dateLt a b) (h2 : dateLt b c) :
    dateLt a c := by
  unfold dateLt at h1 h2 ⊢
  omega

/-- Message paired with the date Telegram always attaches to it (the
`date` field inside `TgMessage` is optional only because
`format_timestamp` accepts `None`). -/
structure DatedMsg where
  date : PyDateTime
  msg : TgMessage
  deriving DecidableEq, Repr

/-- Collection loop of `handle_read_messages` (server.py lines 559-570):
per streamed message, break if its date is below the `min_date` cutoff,
else append the formatted message and break once `limit` are collected.
`collected` is `len(messages)` so far; the second result counts consumed
stream elements. -/
def read_messages_loop (minDate : Option PyDateTime) (limit : Nat)
    (collected : Nat) : List DatedMsg → List (List (String × JVal)) × Nat
  | [] => ([], 0)
  | m :: rest =>
    if (match minDate with
        | some d => decide (dateLt m.date d)
        | none => false) then ([], 1)
    else if collected + 1 ≥ limit then ([format_message m.msg], 1)
    else
      let r := read_messages_loop minDate limit (collected + 1) rest
      (format_message m.msg :: r.1, r.2 + 1)

/-- Helper: with `c` messages already collected and room left, the loop
returns the formatted `limit - c`-prefix of the streamed messages at or
above the cutoff. -/
theorem read_messages_loop_take (d : PyDateTime) (limit : Nat) :
    ∀ (stream : List DatedMsg) (c : Nat), c < limit →
      (read_messages_loop (some d) limit c stream).1 =
        (((stream.takeWhile (fun m => !decide (dateLt m.date d))).take
          (limit - c)).map (fun m => format_message m.msg))
  | [], c, _ => by simp [read_messages_loop]
  | m :: rest, c, hc => by
    by_cases hm : dateLt m.date d
    · simp [read_messages_loop, hm, List.takeWhile_cons]
    · by_cases hfull : c + 1 ≥ limit
      · have hlim : limit - c = 1 := by omega
        simp [read_messages_loop, hm, hfull, List.takeWhile_cons, hlim]
      · have hc1 : c + 1 < limit := by omega
        have ih := read_messages_loop_take d limit rest (c + 1) hc1
        have hstep : limit - c = (limit - (c + 1)) + 1 := by omega
        simp [read_messages_loop, hm, hfull, List.takeWhile_cons, hstep, ih]

/-- Helper: the loop never consumes past the first below-cutoff message:
the consumed count is bounded by the length of the at-or-above-cutoff
block plus one. -/
theorem read_messages_loop_consumed (d : PyDateTime) (limit : Nat) :
    ∀ (stream : List DatedMsg) (c : Nat),
      (read_messages_loop (some d) limit c stream).2 ≤
        (stream.takeWhile (fun m => !decide (dateLt m.date d))).length + 1
  | [], c => by simp [read_messages_loop]
  | m :: rest, c => by
    by_cases hm : dateLt m.date d
    · simp [read_messages_loop, hm]
    · by_cases hfull : c + 1 ≥ limit
      · simp [read_messages_loop, hm, hfull, List.takeWhile_cons]
      · have ih := read_messages_loop_consumed d limit rest (c + 1)
        have hred : (read_messages_loop (some d) limit c (m :: rest)).2 =
            (read_messages_loop (some d) limit (c + 1) rest).2 + 1 := by
          simp [read_messages_loop, hm, hfull]
        have hp : (!decide (dateLt m.date d)) = true := by simp [hm]
        rw [hred, List.takeWhile_cons, if_pos hp, List.length_cons]
        omega

/-- Helper: on a strictly descending stream the at-or-above-cutoff block
is all the at-or-above-cutoff messages. -/
theorem takeWhile_eq_filter_of_desc (d : PyDateTime) :
    ∀ stream : List DatedMsg,
      stream.Pairwise (fun a b => dateLt b.date a.date) →
      stream.takeWhile (fun m => !decide (dateLt m.date d)) =
        stream.filter (fun m => !decide (dateLt m.date d))
  | [], _ => rfl
  | m :: rest, h => by
    obtain ⟨hall, hrest⟩ := List.pairwise_cons.mp h
    by_cases hm : dateLt m.date d
    · have hnil : rest.filter (fun m => !decide (dateLt m.date d)) = [] := by
        rw [List.filter_eq_nil_iff]
        intro x hx
        have hx2 := dateLt_trans (hall x hx) hm
        simp [hx2]
      simp [List.takeWhile_cons, List.filter_cons, hm, hnil]
    · simp [List.takeWhile_cons, List.filter_cons, hm,
        takeWhile_eq_filter_of_desc d rest hrest]

/-- C2: on a strictly descending stream with a `min_date` cutoff and a
positive limit, the handler returns exactly the formatted prefix of
messages dated at or above the cutoff, capped at `limit`, and it stops
reading the stream no later than one element past that prefix. -/
theorem read_messages_min_date_spec (stream : List DatedMsg) (d : PyDateTime)
    (limit : Nat)
    (hsorted : stream.Pairwise (fun a b => dateLt b.date a.date))
    (hlimit : 1 ≤ limit) :
    (read_messages_loop (some d) limit 0 stream).1 =
      ((stream.filter (fun m => !decide (dateLt m.date d))).take limit).map
        (fun m => format_message m.msg) ∧
    (read_messages_loop (some d) limit 0 stream).2 ≤
      (stream.filter (fun m => !decide (dateLt m.date d))).length + 1 := by
  have htf := takeWhile_eq_filter_of_desc d stream hsorted
  constructor
  · have h := read_messages_loop_take d limit stream 0 (by omega)
    rw [h, htf]
    simp
  · have h := read_messages_loop_consumed d limit stream 0
    rw [htf] at h
    exact h

/-- C2 witness: a stream dated Jan 5, Jan 4, Jan 2 with cutoff Jan 3 and
limit 20 returns exactly the first two messages formatted, and consumes
at most three stream elements. -/
theorem read_messages_min_date_spec_witness :
    ([⟨⟨2024, 1, 5, 0, 0, 0⟩, mkPlainMsg 30⟩, ⟨⟨2024, 1, 4, 0, 0, 0⟩, mkPlainMsg 20⟩,
      ⟨⟨2024, 1, 2, 0, 0, 0⟩, mkPlainMsg 10⟩] : List DatedMsg).Pairwise
        (fun a b => dateLt b.date a.date) ∧
    (read_messages_loop (some ⟨2024, 1, 3, 0, 0, 0⟩) 20 0
        [⟨⟨2024, 1, 5, 0, 0, 0⟩, mkPlainMsg 30⟩, ⟨⟨2024, 1, 4, 0, 0, 0⟩, mkPlainMsg 20⟩,
         ⟨⟨2024, 1, 2, 0, 0, 0⟩, mkPlainMsg 10⟩]).1 =
      [format_message (mkPlainMsg 30), format_message (mkPlainMsg 20)] ∧
    (read_messages_loop (some ⟨2024, 1, 3, 0, 0, 0⟩) 20 0
        [⟨⟨2024, 1, 5, 0, 0, 0⟩, mkPlainMsg 30⟩, ⟨⟨2024, 1, 4, 0, 0, 0⟩, mkPlainMsg 20⟩,
         ⟨⟨2024, 1, 2, 0, 0, 0⟩, mkPlainMsg 10⟩]).2 ≤ 3 := by
  have h := read_messages_min_date_spec
    [⟨⟨2024, 1, 5, 0, 0, 0⟩, mkPlainMsg 30⟩, ⟨⟨2024, 1, 4, 0, 0, 0⟩, mkPlainMsg 20⟩,
     ⟨⟨2024, 1, 2, 0, 0, 0⟩, mkPlainMsg 10⟩] ⟨2024, 1, 3, 0, 0, 0⟩ 20
    (by decide) (by decide)
  refine ⟨by decide, ?_, ?_⟩
  · rw [h.1]
    rfl
  · calc (read_messages_loop (some ⟨2024, 1, 3, 0, 0, 0⟩) 20 0 _).2
        ≤ _ + 1 := h.2
    _ ≤ 3 := by decide

/-! ## Delete message (`handle_delete_message`, server.py lines 690-703)

When the remote `delete_messages` call returns (rather than raising — a
raise is handled by the dispatcher), the handler computes
`deleted_count` from the returned `AffectedMessages` list
(`getattr(result[0], "pts_count", 1)` when nonempty, else 0) but never
uses it: the response is always the fixed `deleted` record. -/

/-- Element of the remote delete result; `pts_count` is `none` for an
object lacking that attribute (`getattr` default 1). -/
structure AffectedMessages where
  pts_count : Option Int
  deriving DecidableEq, Repr

/-- The affected-count the handler computes from the remote result
(server.py line 697). -/
def deleted_count (result : List AffectedMessages) : Int :=
  match result with
  | [] => 0
  | a :: _ => a.pts_count.getD 1

/-- Response record of `handle_delete_message`. -/
structure DeleteResponse where
  status : String
  message_id : Int
  chat_id : ChatRef
  deriving DecidableEq, Repr

/-- Embedding of `handle_delete_message` (server.py lines 690-703) as a
function of the raw arguments and the remote result. -/
def handle_delete_message (chat_id_arg : ChatRef) (message_id : Int)
    (remoteResult : List AffectedMessages) : DeleteResponse :=
  let _deleted_count := deleted_count remoteResult
  { status := "deleted", message_id := message_id, chat_id := chat_id_arg }

/-- C9: whenever the remote delete returns, the handler answers with
status `"deleted"`, the requested message id and the raw chat id,
whatever the remote result reports — the computed affected count
(`0` on an empty result, else the first element's `pts_count` defaulting
to 1) never reaches the caller. -/
theorem handle_delete_message_discards_count :
    (∀ cid mid remoteResult, handle_delete_message cid mid remoteResult =
      { status := "deleted", message_id := mid, chat_id := cid }) ∧
    (∀ cid mid r1 r2, handle_delete_message cid mid r1 =
      handle_delete_message cid mid r2) ∧
    deleted_count [] = 0 ∧
    (∀ a rest, deleted_count (a :: rest) = a.pts_count.getD 1) :=
  ⟨fun _ _ _ => rfl, fun _ _ _ _ => rfl, rfl, fun _ _ => rfl⟩

end TelegramMcp
